import Mathlib

/-!
Verification of PurgeCOSPathCache (src/main.go): a CLI tool that loads a
YAML configuration, validates it, and issues a single Tencent Cloud CDN
cache-purge API call.  The external collaborators (file system, YAML
unmarshaller, SDK client constructor, remote purge endpoint) are modelled
as parameters of an environment; the `main` function of the program is
embedded as `mainRun`, which returns the observable trace of a process
invocation: its exit code, the lines it prints, the client constructions
it performs and the network calls it issues.
-/

namespace PurgeCOS

/-- Embedding of the anonymous `TencentCloud` sub-struct of `Config`
(src/main.go lines 18-22): fields `secret_id`, `secret_key`, `region`. -/
structure TencentCloudConfig where
  secretID : String
  secretKey : String
  region : String
deriving DecidableEq

/-- Embedding of the anonymous `PurgeConfig` sub-struct of `Config`
(src/main.go lines 23-28): fields `paths`, `flush_type`, `url_encode`,
`area`. -/
structure PurgeConfig where
  paths : List String
  flushType : String
  urlEncode : Bool
  area : String
deriving DecidableEq

/-- Embedding of the `Config` struct (src/main.go lines 17-29). -/
structure Config where
  tencentCloud : TencentCloudConfig
  purgeConfig : PurgeConfig
deriving DecidableEq

/-- Embedding of `validateConfig` (src/main.go lines 55-69).  A Go
`error` result is modelled as `Option String`: `some msg` is a non-nil
error carrying `msg`, `none` is the nil error (success). -/
def validateConfig (config : Config) : Option String :=
  if config.tencentCloud.secretID = "" then
    some "secret_id is required in configuration"
  else if config.tencentCloud.secretKey = "" then
    some "secret_key is required in configuration"
  else if config.purgeConfig.paths.length = 0 then
    some "at least one path is required in purge_config.paths"
  else if config.purgeConfig.flushType = "" then
    some "flush_type is required in purge_config"
  else
    none

/-- Outcome of looking up a path on the file system, abstracting the
`os.Stat` / `os.ReadFile` pair used by `loadConfig` (src/main.go lines
34-42): the path does not exist, the file exists but reading it fails,
or reading yields the file's bytes. -/
inductive FileResult where
  | notExist : FileResult
  | readError (msg : String) : FileResult
  | content (data : String) : FileResult
deriving DecidableEq

/-- The three failure shapes of `loadConfig` (src/main.go lines 35, 41,
48), each tagged with the datum interpolated into its message. -/
inductive LoadError where
  | notFound (path : String) : LoadError
  | ioError (msg : String) : LoadError
  | parseError (msg : String) : LoadError
deriving DecidableEq

/-- The message each `loadConfig` failure carries, as formatted by
`fmt.Errorf` at src/main.go lines 35, 41 and 48. -/
def LoadError.message : LoadError → String
  | .notFound path => "config file does not exist: " ++ path
  | .ioError msg => "failed to read config file: " ++ msg
  | .parseError msg => "failed to parse YAML config: " ++ msg

/-- Embedding of `loadConfig` (src/main.go lines 32-52).  The file
system and the YAML unmarshaller (`yaml.Unmarshal`, an external library)
are passed in as functions; the three early returns become the three
`LoadError` constructors and the final return becomes `Except.ok`. -/
def loadConfig (yamlUnmarshal : String → Except String Config)
    (fs : String → FileResult) (configPath : String) :
    Except LoadError Config :=
  match fs configPath with
  | .notExist => .error (.notFound configPath)
  | .readError msg => .error (.ioError msg)
  | .content data =>
    match yamlUnmarshal data with
    | .error msg => .error (.parseError msg)
    | .ok config => .ok config

/-- Embedding of the `cdn.PurgePathCacheRequest` fields that `main`
sets (src/main.go lines 111-122).  `Paths`, `FlushType` and `UrlEncode`
are always set; `Area` is a pointer left nil unless the config's area is
non-empty, modelled as an `Option`. -/
structure PurgeRequest where
  paths : List String
  flushType : String
  urlEncode : Bool
  area : Option String
deriving DecidableEq

/-- Embedding of lines 111-122 of src/main.go: the request object is
populated from the configuration, with `Area` set only when the
configured area is non-empty. -/
def buildRequest (config : Config) : PurgeRequest :=
  { paths := config.purgeConfig.paths
    flushType := config.purgeConfig.flushType
    urlEncode := config.purgeConfig.urlEncode
    area :=
      if config.purgeConfig.area ≠ "" then some config.purgeConfig.area
      else none }

/-- Outcome of the remote `client.PurgePathCache` call (src/main.go line
125), as discriminated by `main` (lines 128-141): a structured
`TencentCloudSDKError` (carrying the string `err` formats to), a generic
non-nil error, or a successful response (carrying the string its
`ToJsonString` returns). -/
inductive PurgeOutcome where
  | sdkError (errString : String) : PurgeOutcome
  | genericError (errString : String) : PurgeOutcome
  | success (json : String) : PurgeOutcome
deriving DecidableEq

/-- The external world `main` runs against: the YAML unmarshaller, the
file system, the SDK client constructor `cdn.NewClient` (taking the
secret id, secret key and region it is invoked with) and the remote
purge endpoint (a function of the request sent to it). -/
structure Env where
  yamlUnmarshal : String → Except String Config
  fs : String → FileResult
  newClient : String → String → String → Except String Unit
  purgePathCache : PurgeRequest → PurgeOutcome

/-- Observable trace of one process invocation: the exit status, the
printed lines in order, the `(secretID, secretKey, region)` triples
passed to `cdn.NewClient`, and the requests sent over the network. -/
structure RunResult where
  exitCode : Nat
  output : List String
  clientInits : List (String × String × String)
  networkCalls : List PurgeRequest
deriving DecidableEq

/-- Embedding of `flag.StringVar(&configPath, "c", "config.yaml", ...)`
(src/main.go line 74): the single registered command-line flag, as the
pair of its name and its default value. -/
def definedFlags : List (String × String) := [("c", "config.yaml")]

/-- The configuration path `main` uses: the value of the `-c` flag when
it was given, the default `"config.yaml"` otherwise (src/main.go lines
73-78). -/
def configPathOf (cFlag : Option String) : String :=
  cFlag.getD "config.yaml"

/-- Embedding of `main` from the point where the configuration has been
loaded (src/main.go lines 85-141): validate, construct the client, build
the request, call the purge endpoint, and print/exit accordingly. -/
def runFromConfig (env : Env) (config : Config) : RunResult :=
  match validateConfig config with
  | some msg =>
    { exitCode := 1
      output := ["Configuration validation failed: " ++ msg]
      clientInits := []
      networkCalls := [] }
  | none =>
    let inits := [(config.tencentCloud.secretID,
      config.tencentCloud.secretKey, config.tencentCloud.region)]
    match env.newClient config.tencentCloud.secretID
        config.tencentCloud.secretKey config.tencentCloud.region with
    | .error msg =>
      { exitCode := 1
        output := ["Error creating CDN client: " ++ msg]
        clientInits := inits
        networkCalls := [] }
    | .ok _ =>
      let request := buildRequest config
      match env.purgePathCache request with
      | .sdkError s =>
        { exitCode := 1
          output := ["API error returned: " ++ s]
          clientInits := inits
          networkCalls := [request] }
      | .genericError s =>
        { exitCode := 1
          output := ["Unexpected error: " ++ s]
          clientInits := inits
          networkCalls := [request] }
      | .success json =>
        { exitCode := 0
          output := ["Purge operation completed successfully: " ++ json]
          clientInits := inits
          networkCalls := [request] }

/-- Embedding of `main` (src/main.go lines 71-142).  `cFlag` is the
value of the `-c` command-line flag when one was given. -/
def mainRun (env : Env) (cFlag : Option String) : RunResult :=
  match loadConfig env.yamlUnmarshal env.fs (configPathOf cFlag) with
  | .error e =>
    { exitCode := 1
      output := ["Error loading configuration: " ++ e.message]
      clientInits := []
      networkCalls := [] }
  | .ok config => runFromConfig env config

/-- `config` with its paths list replaced (all other fields kept). -/
def withPaths (config : Config) (ps : List String) : Config :=
  { config with purgeConfig := { config.purgeConfig with paths := ps } }

/-- A well-formed concrete configuration: one path with a scheme, flush
type `delete`, url_encode false, no area, non-empty credentials. -/
def cfgValid : Config :=
  ⟨⟨"AKIDexample", "SKexample", "ap-guangzhou"⟩,
   ⟨["http://example.com/a.js"], "delete", false, ""⟩⟩

/-- The same configuration but with an empty `secret_id`. -/
def cfgNoSecret : Config :=
  ⟨⟨"", "SKexample", "ap-guangzhou"⟩,
   ⟨["http://example.com/a.js"], "delete", false, ""⟩⟩

/-- A configuration whose `region` is the empty string but whose four
required fields are all present. -/
def cfgEmptyRegion : Config :=
  ⟨⟨"id", "key", ""⟩, ⟨["http://example.com/x"], "flush", false, ""⟩⟩

/-- A configuration whose paths list is non-empty but consists of empty
strings only. -/
def cfgEmptyEntries : Config :=
  ⟨⟨"id", "key", "ap-guangzhou"⟩, ⟨["", ""], "flush", false, ""⟩⟩

/-- An environment whose file system holds one readable file that the
YAML unmarshaller parses to `c`, whose client constructor succeeds, and
whose purge endpoint behaves as `purge`. -/
def envOf (c : Config) (purge : PurgeRequest → PurgeOutcome) : Env :=
  { yamlUnmarshal := fun _ => .ok c
    fs := fun _ => .content "yaml-bytes"
    newClient := fun _ _ _ => .ok ()
    purgePathCache := purge }

/-- `validateConfig` succeeds exactly when the four required fields are
present. -/
theorem validateConfig_eq_none_iff (config : Config) :
    validateConfig config = none ↔
      config.tencentCloud.secretID ≠ "" ∧
      config.tencentCloud.secretKey ≠ "" ∧
      config.purgeConfig.paths ≠ [] ∧
      config.purgeConfig.flushType ≠ "" := by
  unfold validateConfig
  split_ifs with h1 h2 h3 h4 <;> simp_all [List.length_eq_zero]

/-- When loading succeeds with `config`, the run is the run from
`config`. -/
theorem mainRun_ok (env : Env) (cFlag : Option String) (config : Config)
    (hload : loadConfig env.yamlUnmarshal env.fs (configPathOf cFlag) =
      .ok config) :
    mainRun env cFlag = runFromConfig env config := by
  unfold mainRun
  rw [hload]

/-- C1: `validateConfig` returns an error iff at least one of the four
required fields is missing (secret_id empty, secret_key empty, paths
empty, flush_type empty); when several checks fail it reports exactly
one reason, the one for the first failing check in the order secret_id,
secret_key, paths, flush_type; with all four present it returns no
error. -/
theorem C1_validateConfig_first_failing_check (config : Config) :
    (validateConfig config = none ↔
      config.tencentCloud.secretID ≠ "" ∧
      config.tencentCloud.secretKey ≠ "" ∧
      config.purgeConfig.paths ≠ [] ∧
      config.purgeConfig.flushType ≠ "") ∧
    (config.tencentCloud.secretID = "" →
      validateConfig config = some "secret_id is required in configuration") ∧
    (config.tencentCloud.secretID ≠ "" →
      config.tencentCloud.secretKey = "" →
      validateConfig config = some "secret_key is required in configuration") ∧
    (config.tencentCloud.secretID ≠ "" →
      config.tencentCloud.secretKey ≠ "" →
      config.purgeConfig.paths = [] →
      validateConfig config =
        some "at least one path is required in purge_config.paths") ∧
    (config.tencentCloud.secretID ≠ "" →
      config.tencentCloud.secretKey ≠ "" →
      config.purgeConfig.paths ≠ [] →
      config.purgeConfig.flushType = "" →
      validateConfig config = some "flush_type is required in purge_config") := by
  refine ⟨validateConfig_eq_none_iff config, ?_, ?_, ?_, ?_⟩ <;>
  · intros
    unfold validateConfig
    split_ifs <;> simp_all [List.length_eq_zero]

theorem C1_witness :
    validateConfig ⟨⟨"", "", ""⟩, ⟨[], "", false, ""⟩⟩ =
      some "secret_id is required in configuration" :=
  (C1_validateConfig_first_failing_check ⟨⟨"", "", ""⟩, ⟨[], "", false, ""⟩⟩).2.1
    rfl

/-- C2: the built `PurgeRequest` carries the configuration's paths
element for element in order, the flush type and url-encode flag copied
verbatim, and an area exactly when the configured area is non-empty (in
which case it is that area, verbatim). -/
theorem C2_buildRequest_verbatim (config : Config) :
    (buildRequest config).paths = config.purgeConfig.paths ∧
    (buildRequest config).flushType = config.purgeConfig.flushType ∧
    (buildRequest config).urlEncode = config.purgeConfig.urlEncode ∧
    ((buildRequest config).area = none ↔ config.purgeConfig.area = "") ∧
    (config.purgeConfig.area ≠ "" →
      (buildRequest config).area = some config.purgeConfig.area) := by
  unfold buildRequest
  by_cases h : config.purgeConfig.area = "" <;> simp [h]

theorem C2_witness :
    (buildRequest ⟨⟨"i", "k", "r"⟩, ⟨["a", "b"], "flush", true, "mainland"⟩⟩).area =
      some "mainland" :=
  (C2_buildRequest_verbatim
    ⟨⟨"i", "k", "r"⟩, ⟨["a", "b"], "flush", true, "mainland"⟩⟩).2.2.2.2
    (by decide)

/-- C3: when the loaded configuration misses one of the four required
fields, the process exits with status 1 printing a validation failure
message, and no network call is issued. -/
theorem C3_validation_failure_before_network (env : Env)
    (cFlag : Option String) (config : Config)
    (hload : loadConfig env.yamlUnmarshal env.fs (configPathOf cFlag) =
      .ok config)
    (hbad : config.tencentCloud.secretID = "" ∨
      config.tencentCloud.secretKey = "" ∨
      config.purgeConfig.paths = [] ∨
      config.purgeConfig.flushType = "") :
    (mainRun env cFlag).exitCode = 1 ∧
    (mainRun env cFlag).networkCalls = [] ∧
    ∃ msg, (mainRun env cFlag).output =
      ["Configuration validation failed: " ++ msg] := by
  obtain ⟨msg, hmsg⟩ : ∃ msg, validateConfig config = some msg := by
    cases hv : validateConfig config with
    | some m => exact ⟨m, rfl⟩
    | none =>
      rw [validateConfig_eq_none_iff] at hv
      tauto
  rw [mainRun_ok env cFlag config hload]
  unfold runFromConfig
  rw [hmsg]
  exact ⟨rfl, rfl, msg, rfl⟩

theorem C3_witness :
    (mainRun (envOf cfgNoSecret (fun _ => .success "ok")) none).exitCode = 1 ∧
    (mainRun (envOf cfgNoSecret (fun _ => .success "ok")) none).networkCalls =
      [] ∧
    ∃ msg, (mainRun (envOf cfgNoSecret (fun _ => .success "ok")) none).output =
      ["Configuration validation failed: " ++ msg] :=
  C3_validation_failure_before_network _ none cfgNoSecret rfl (Or.inl rfl)

/-- C4: `loadConfig` fails with `notFound` when the path does not
exist, with `ioError` when the file exists but cannot be read, with
`parseError` when the content does not unmarshal, and returns the
deserialized configuration on success; being a total function, it never
faults. -/
theorem C4_loadConfig_error_taxonomy
    (yamlUnmarshal : String → Except String Config)
    (fs : String → FileResult) (path : String) :
    (fs path = .notExist →
      loadConfig yamlUnmarshal fs path = .error (.notFound path)) ∧
    (∀ msg, fs path = .readError msg →
      loadConfig yamlUnmarshal fs path = .error (.ioError msg)) ∧
    (∀ data msg, fs path = .content data → yamlUnmarshal data = .error msg →
      loadConfig yamlUnmarshal fs path = .error (.parseError msg)) ∧
    (∀ data config, fs path = .content data → yamlUnmarshal data = .ok config →
      loadConfig yamlUnmarshal fs path = .ok config) := by
  refine ⟨?_, ?_, ?_, ?_⟩ <;> intros <;> unfold loadConfig <;> simp_all

theorem C4_witness :
    loadConfig (fun _ => .error "unparsed") (fun _ => .notExist) "config.yaml" =
      .error (.notFound "config.yaml") :=
  (C4_loadConfig_error_taxonomy (fun _ => .error "unparsed")
    (fun _ => .notExist) "config.yaml").1 rfl

/-- C5: for a validated configuration (with the client constructed
successfully), exactly one network call is issued, carrying the request
built from that configuration; when it succeeds, the process prints the
serialized result and exits with status 0. -/
theorem C5_exactly_one_network_call (env : Env) (cFlag : Option String)
    (config : Config)
    (hload : loadConfig env.yamlUnmarshal env.fs (configPathOf cFlag) =
      .ok config)
    (hvalid : validateConfig config = none)
    (hclient : env.newClient config.tencentCloud.secretID
      config.tencentCloud.secretKey config.tencentCloud.region = .ok ()) :
    (mainRun env cFlag).networkCalls = [buildRequest config] ∧
    (∀ json, env.purgePathCache (buildRequest config) = .success json →
      (mainRun env cFlag).exitCode = 0 ∧
      (mainRun env cFlag).output =
        ["Purge operation completed successfully: " ++ json]) := by
  rw [mainRun_ok env cFlag config hload]
  unfold runFromConfig
  rw [hvalid, hclient]
  cases hp : env.purgePathCache (buildRequest config) <;> simp_all

theorem C5_witness :
    (mainRun (envOf cfgValid (fun _ => .success "done")) none).networkCalls =
      [buildRequest cfgValid] ∧
    buildRequest cfgValid =
      ⟨["http://example.com/a.js"], "delete", false, none⟩ ∧
    (mainRun (envOf cfgValid (fun _ => .success "done")) none).exitCode = 0 ∧
    (mainRun (envOf cfgValid (fun _ => .success "done")) none).output =
      ["Purge operation completed successfully: done"] := by
  have h := C5_exactly_one_network_call
    (envOf cfgValid (fun _ => .success "done")) none cfgValid rfl rfl rfl
  exact ⟨h.1, by decide, (h.2 "done" rfl).1, (h.2 "done" rfl).2⟩

/-- C6: a structured SDK error from the purge call makes the process
exit with status 1 printing the error string after the prefix
"API error returned: "; a generic error is handled by a different
branch with the different prefix "Unexpected error: ". -/
theorem C6_sdk_error_branch (env : Env) (cFlag : Option String)
    (config : Config)
    (hload : loadConfig env.yamlUnmarshal env.fs (configPathOf cFlag) =
      .ok config)
    (hvalid : validateConfig config = none)
    (hclient : env.newClient config.tencentCloud.secretID
      config.tencentCloud.secretKey config.tencentCloud.region = .ok ()) :
    (∀ s, env.purgePathCache (buildRequest config) = .sdkError s →
      (mainRun env cFlag).exitCode = 1 ∧
      (mainRun env cFlag).output = ["API error returned: " ++ s]) ∧
    (∀ s, env.purgePathCache (buildRequest config) = .genericError s →
      (mainRun env cFlag).exitCode = 1 ∧
      (mainRun env cFlag).output = ["Unexpected error: " ++ s]) ∧
    ("API error returned: " : String) ≠ "Unexpected error: " := by
  rw [mainRun_ok env cFlag config hload]
  unfold runFromConfig
  rw [hvalid, hclient]
  refine ⟨fun s hp => ?_, fun s hp => ?_, by decide⟩ <;> simp_all

theorem C6_witness :
    (mainRun (envOf cfgValid
      (fun _ => .sdkError "[TencentCloudSDKError] Code=AuthFailure"))
      none).exitCode = 1 ∧
    (mainRun (envOf cfgValid
      (fun _ => .sdkError "[TencentCloudSDKError] Code=AuthFailure"))
      none).output =
      ["API error returned: [TencentCloudSDKError] Code=AuthFailure"] :=
  (C6_sdk_error_branch
    (envOf cfgValid
      (fun _ => .sdkError "[TencentCloudSDKError] Code=AuthFailure"))
    none cfgValid rfl rfl rfl).1
    "[TencentCloudSDKError] Code=AuthFailure" rfl

/-- C7: the exit status is 0 exactly when the whole flow succeeds
(configuration loaded, validated, client built, purge call succeeded),
and 1 for every failure, of whatever kind. -/
theorem C7_exit_code_zero_iff_success (env : Env) (cFlag : Option String) :
    ((mainRun env cFlag).exitCode = 0 ∨ (mainRun env cFlag).exitCode = 1) ∧
    ((mainRun env cFlag).exitCode = 0 ↔
      ∃ config json,
        loadConfig env.yamlUnmarshal env.fs (configPathOf cFlag) =
          .ok config ∧
        validateConfig config = none ∧
        env.newClient config.tencentCloud.secretID
          config.tencentCloud.secretKey config.tencentCloud.region =
          .ok () ∧
        env.purgePathCache (buildRequest config) = .success json) := by
  unfold mainRun
  cases hl : loadConfig env.yamlUnmarshal env.fs (configPathOf cFlag) with
  | error e => simp
  | ok config =>
    unfold runFromConfig
    cases hv : validateConfig config with
    | some msg => simp [hv]
    | none =>
      cases hc : env.newClient config.tencentCloud.secretID
          config.tencentCloud.secretKey config.tencentCloud.region with
      | error msg => simp [hv, hc]
      | ok u =>
        cases u
        cases hp : env.purgePathCache (buildRequest config) <;>
          simp_all

/-- C8: the command line registers exactly one optional flag, `-c` with
default `"config.yaml"`; the configuration path is the flag's value
when given and `"config.yaml"` otherwise, so a run without `-c` is the
same as a run with `-c config.yaml`. -/
theorem C8_single_flag_default_path (p : String) :
    definedFlags = [("c", "config.yaml")] ∧
    configPathOf none = "config.yaml" ∧
    configPathOf (some p) = p ∧
    (∀ env : Env, mainRun env none = mainRun env (some "config.yaml")) :=
  ⟨rfl, rfl, rfl, fun _ => rfl⟩

/-- C9: `validateConfig` never inspects `region`: a configuration with
the four required fields present validates whatever its region is, the
empty region included, and the region is passed to client construction
unchanged. -/
theorem C9_region_not_inspected (config : Config)
    (h1 : config.tencentCloud.secretID ≠ "")
    (h2 : config.tencentCloud.secretKey ≠ "")
    (h3 : config.purgeConfig.paths ≠ [])
    (h4 : config.purgeConfig.flushType ≠ "") :
    validateConfig config = none ∧
    (∀ r, validateConfig
      ⟨⟨config.tencentCloud.secretID, config.tencentCloud.secretKey, r⟩,
        config.purgeConfig⟩ = none) ∧
    (∀ env : Env, ∀ cFlag : Option String,
      loadConfig env.yamlUnmarshal env.fs (configPathOf cFlag) = .ok config →
      (mainRun env cFlag).clientInits =
        [(config.tencentCloud.secretID, config.tencentCloud.secretKey,
          config.tencentCloud.region)]) := by
  have hvalid : validateConfig config = none :=
    (validateConfig_eq_none_iff config).2 ⟨h1, h2, h3, h4⟩
  refine ⟨hvalid, fun r => ?_, fun env cFlag hload => ?_⟩
  · exact (validateConfig_eq_none_iff _).2 ⟨h1, h2, h3, h4⟩
  · rw [mainRun_ok env cFlag config hload]
    unfold runFromConfig
    rw [hvalid]
    cases hc : env.newClient config.tencentCloud.secretID
        config.tencentCloud.secretKey config.tencentCloud.region with
    | error msg => simp_all
    | ok u =>
      cases u
      cases hp : env.purgePathCache (buildRequest config) <;> simp_all

theorem C9_witness :
    validateConfig cfgEmptyRegion = none ∧
    cfgEmptyRegion.tencentCloud.region = "" ∧
    (mainRun (envOf cfgEmptyRegion (fun _ => .success "ok")) none).clientInits =
      [("id", "key", "")] := by
  have h := C9_region_not_inspected cfgEmptyRegion (by decide) (by decide)
    (by decide) (by decide)
  exact ⟨h.1, rfl, h.2.2 (envOf cfgEmptyRegion (fun _ => .success "ok")) none rfl⟩

/-- C10: `validateConfig` looks only at the length of the paths list,
never at its elements: two configurations differing only in path
contents validate identically, a non-empty list of empty strings
passes, and the entries reach the request's `Paths` verbatim. -/
theorem C10_path_contents_not_inspected (config : Config)
    (h1 : config.tencentCloud.secretID ≠ "")
    (h2 : config.tencentCloud.secretKey ≠ "")
    (h4 : config.purgeConfig.flushType ≠ "") :
    (∀ ps qs : List String, ps.length = qs.length →
      validateConfig (withPaths config ps) =
        validateConfig (withPaths config qs)) ∧
    (config.purgeConfig.paths ≠ [] → validateConfig config = none) ∧
    (buildRequest config).paths = config.purgeConfig.paths := by
  refine ⟨fun ps qs hlen => ?_, fun h3 => ?_, rfl⟩
  · simp [validateConfig, withPaths, hlen]
  · exact (validateConfig_eq_none_iff config).2 ⟨h1, h2, h3, h4⟩

theorem C10_witness :
    validateConfig cfgEmptyEntries = none ∧
    (buildRequest cfgEmptyEntries).paths = ["", ""] := by
  have h := C10_path_contents_not_inspected cfgEmptyEntries (by decide)
    (by decide) (by decide)
  exact ⟨h.2.1 (by decide), h.2.2⟩

end PurgeCOS
